import Mathlib

set_option linter.unusedVariables false

/-!
Shallow embedding of the carecloud front-end script, which exists in two
near-duplicate variants:

* the non-defensive variant (src/web/script.js), embedded under the plain
  source names (`renderArticles`, `filterArticles`, `openVideo`, ...);
* the defensive variant (src/unnamed/part_000), embedded under the same
  names with a `Def` suffix (`renderArticlesDef`, `filterArticlesDef`,
  `openVideoDef`, ...).

Modelling conventions:

* A JavaScript object field that may be absent is an `Option`; template
  interpolation of an absent field renders the literal string "undefined"
  (`js`), and the JavaScript `x || d` fallback on strings is `jsOr`
  (absent or empty string falls back to the default).
* The only statement of the renderers that can throw is
  `video.tags.map(...)` when `tags` is absent, so `videoCard` and
  `renderVideos` return `Except JsError String`; every other renderer is a
  total string function.
* `toLowerCase` (per-character ASCII lowering) stands for JavaScript
  `toLowerCase`; both agree on the ASCII strings used in all concrete
  evaluations below.
* A loader run is a pure function from the outcome of its `fetch`
  (`FetchResult`) and the current page state to the next page state; the
  `catch` branch becomes the explicit error cases.  `PageState.articlesData`
  is an `Option` because the non-defensive loader can assign `undefined`
  to the global array before the render call throws.
* The modal controller acts on `ModalState` (player `src`, `active` class)
  and additionally returns the list of `alert` notices it emitted.
-/

namespace CareCloud

/-- An article record from the JSON document; every field may be absent. -/
structure Article where
  id : Option Nat
  title : Option String
  excerpt : Option String
  image : Option String
  tag : Option String
  category : Option String
deriving DecidableEq

/-- A video record from the JSON document; every field may be absent. -/
structure Video where
  title : Option String
  thumbnail : Option String
  youtubeId : Option String
  channel : Option String
  duration : Option String
  category : Option String
  tags : Option (List String)
deriving DecidableEq

/-- The single JavaScript exception kind the embedding needs: a TypeError
from calling a method on `undefined`. -/
inductive JsError where
  | typeError
deriving DecidableEq

/-- Template interpolation of a possibly-absent string field: JavaScript
renders `undefined` as the literal text "undefined". -/
def js : Option String → String
  | some s => s
  | none => "undefined"

/-- Template interpolation of a possibly-absent numeric field. -/
def jsNat : Option Nat → String
  | some n => toString n
  | none => "undefined"

/-- JavaScript `v || d` on a possibly-absent string: absent and the empty
string are falsy and fall back to the default. -/
def jsOr (v : Option String) (d : String) : String :=
  match v with
  | some s => if s = "" then d else s
  | none => d

/-- Placeholder markup rendered for an empty article list. -/
def noArticlesHtml : String := "<div class=\"loading\">Нет статей</div>"

/-- Placeholder markup rendered for an empty video list. -/
def noVideosHtml : String := "<div class=\"loading\">Нет видео</div>"

/-- One article card of the non-defensive renderer (script.js lines 92-104):
every field is interpolated directly, with no fallback. -/
def articleCard (article : Article) : String :=
  "\n        <div class=\"article-card\" data-category=\"" ++ js article.category ++ "\">\n" ++
  "            <div class=\"article-image\" style=\"background-image: url(\x27" ++
    js article.image ++ "\x27)\"></div>\n" ++
  "            <div class=\"article-content\">\n" ++
  "                <span class=\"article-tag\">" ++ js article.tag ++ "</span>\n" ++
  "                <h3 class=\"article-title\">" ++ js article.title ++ "</h3>\n" ++
  "                <p class=\"article-excerpt\">" ++ js article.excerpt ++ "</p>\n" ++
  "                <a href=\"#\" class=\"article-link\" onclick=\"openArticle(" ++
    jsNat article.id ++ ")\">\n" ++
  "                    Читать статью <span>→</span>\n" ++
  "                </a>\n" ++
  "            </div>\n" ++
  "        </div>\n    "

/-- One article card of the defensive renderer (part_000 lines 128-140):
category, image, tag and excerpt have fallbacks, title and id do not. -/
def articleCardDef (article : Article) : String :=
  "\n        <div class=\"article-card\" data-category=\"" ++
    jsOr article.category "все" ++ "\">\n" ++
  "            <div class=\"article-image\" style=\"background-image: url(\x27" ++
    jsOr article.image "https://via.placeholder.com/300x200" ++ "\x27)\"></div>\n" ++
  "            <div class=\"article-content\">\n" ++
  "                <span class=\"article-tag\">" ++ jsOr article.tag "статья" ++ "</span>\n" ++
  "                <h3 class=\"article-title\">" ++ js article.title ++ "</h3>\n" ++
  "                <p class=\"article-excerpt\">" ++ jsOr article.excerpt "" ++ "</p>\n" ++
  "                <a href=\"#\" class=\"article-link\" onclick=\"openArticle(" ++
    jsNat article.id ++ ")\">\n" ++
  "                    Читать статью <span>→</span>\n" ++
  "                </a>\n" ++
  "            </div>\n" ++
  "        </div>\n    "

/-- Non-defensive renderArticles (script.js lines 84-105): empty input gives
the placeholder, otherwise one card per item joined in order. -/
def renderArticles (articles : List Article) : String :=
  if articles.length = 0 then noArticlesHtml
  else String.join (articles.map articleCard)

/-- Defensive renderArticles (part_000 lines 120-141). -/
def renderArticlesDef (articles : List Article) : String :=
  if articles.length = 0 then noArticlesHtml
  else String.join (articles.map articleCardDef)

/-- One tag chip inside a video card. -/
def videoTagSpan (tag : String) : String :=
  "<span class=\"video-tag\">" ++ tag ++ "</span>"

/-- One video card of the non-defensive renderer (script.js lines 116-130).
`video.tags.map(...)` throws a TypeError when `tags` is absent; every other
interpolation cannot throw. -/
def videoCard (video : Video) : Except JsError String :=
  match video.tags with
  | none => .error .typeError
  | some tags =>
    .ok ("\n        <div class=\"video-card\" data-category=\"" ++ js video.category ++ "\">\n" ++
      "            <div class=\"video-thumbnail\" style=\"background-image: url(\x27" ++
        js video.thumbnail ++ "\x27)\"\n" ++
      "                 onclick=\"openVideo(\x27" ++ js video.youtubeId ++ "\x27)\">\n" ++
      "                <div class=\"play-button\">▶</div>\n" ++
      "            </div>\n" ++
      "            <div class=\"video-info\">\n" ++
      "                <h3 class=\"video-title\">" ++ js video.title ++ "</h3>\n" ++
      "                <div class=\"video-channel\">" ++ js video.channel ++ " • " ++
        js video.duration ++ "</div>\n" ++
      "                <div class=\"video-tags\">\n" ++
      "                    " ++ String.join (tags.map videoTagSpan) ++ "\n" ++
      "                </div>\n" ++
      "            </div>\n" ++
      "        </div>\n    ")

/-- One video card of the defensive renderer (part_000 lines 152-166):
every optional field has a fallback, `(video.tags || [])` never throws. -/
def videoCardDef (video : Video) : String :=
  "\n        <div class=\"video-card\" data-category=\"" ++ jsOr video.category "все" ++ "\">\n" ++
  "            <div class=\"video-thumbnail\" style=\"background-image: url(\x27" ++
    jsOr video.thumbnail "https://via.placeholder.com/300x180" ++ "\x27)\"\n" ++
  "                 onclick=\"openVideo(\x27" ++ jsOr video.youtubeId "" ++ "\x27)\">\n" ++
  "                <div class=\"play-button\">▶</div>\n" ++
  "            </div>\n" ++
  "            <div class=\"video-info\">\n" ++
  "                <h3 class=\"video-title\">" ++ js video.title ++ "</h3>\n" ++
  "                <div class=\"video-channel\">" ++ jsOr video.channel "Канал" ++ " • " ++
    jsOr video.duration "00:00" ++ "</div>\n" ++
  "                <div class=\"video-tags\">\n" ++
  "                    " ++ String.join ((video.tags.getD []).map videoTagSpan) ++ "\n" ++
  "                </div>\n" ++
  "            </div>\n" ++
  "        </div>\n    "

/-- Left-to-right map over a list where producing each element may throw;
the first throw aborts the whole map, as JavaScript `Array.map` does. -/
def mapCards {α : Type} (f : α → Except JsError String) : List α → Except JsError (List String)
  | [] => .ok []
  | x :: xs =>
    match f x with
    | .error e => .error e
    | .ok s =>
      match mapCards f xs with
      | .error e => .error e
      | .ok ss => .ok (s :: ss)

/-- Non-defensive renderVideos (script.js lines 108-131): empty input gives
the placeholder; otherwise one card per item, and the whole render throws as
soon as one item has no `tags` field. -/
def renderVideos (videos : List Video) : Except JsError String :=
  if videos.length = 0 then .ok noVideosHtml
  else
    match mapCards videoCard videos with
    | .error e => .error e
    | .ok cards => .ok (String.join cards)

/-- Defensive renderVideos (part_000 lines 144-167): total. -/
def renderVideosDef (videos : List Video) : String :=
  if videos.length = 0 then noVideosHtml
  else String.join (videos.map videoCardDef)

/-- The filter predicate of the non-defensive variant (script.js line 138):
strict equality of the `category` field with the target; an absent field
matches nothing. -/
def articleMatches (category : String) (a : Article) : Bool :=
  a.category == some category

/-- JavaScript `toLowerCase`, embedded as per-character lowering of the
underlying character list (this is `String.map Char.toLower` spelled out so
that the kernel can evaluate it on concrete strings; it agrees with
JavaScript on the ASCII strings used below). -/
def toLowerCase (s : String) : String :=
  ⟨s.data.map Char.toLower⟩

/-- The filter predicate of the defensive variant (part_000 line 176):
the lowercased `category` field (empty string when absent) compared with
the raw target string. -/
def articleMatchesDef (category : String) (a : Article) : Bool :=
  toLowerCase (a.category.getD "") == category

/-- Non-defensive video filter predicate (script.js line 148). -/
def videoMatches (category : String) (v : Video) : Bool :=
  v.category == some category

/-- Defensive video filter predicate (part_000 line 188). -/
def videoMatchesDef (category : String) (v : Video) : Bool :=
  toLowerCase (v.category.getD "") == category

/-- Non-defensive filterArticles (script.js lines 134-141), as the markup
the call puts into the articles container. -/
def filterArticles (category : String) (articlesData : List Article) : String :=
  if category = "all" then renderArticles articlesData
  else renderArticles (articlesData.filter (articleMatches category))

/-- Non-defensive filterVideos (script.js lines 144-151). -/
def filterVideos (category : String) (videosData : List Video) : Except JsError String :=
  if category = "all" then renderVideos videosData
  else renderVideos (videosData.filter (videoMatches category))

/-- Defensive filterArticles (part_000 lines 170-179): on an empty loaded
array the function returns before rendering anything (`none`); otherwise it
renders as the non-defensive variant does, but with the lowercasing
predicate. -/
def filterArticlesDef (category : String) (articlesData : List Article) : Option String :=
  if articlesData.length = 0 then none
  else if category = "all" then some (renderArticlesDef articlesData)
  else some (renderArticlesDef (articlesData.filter (articleMatchesDef category)))

/-- Defensive filterVideos (part_000 lines 182-191). -/
def filterVideosDef (category : String) (videosData : List Video) : Option String :=
  if videosData.length = 0 then none
  else if category = "all" then some (renderVideosDef videosData)
  else some (renderVideosDef (videosData.filter (videoMatchesDef category)))

/-- The modal controller state: the player src attribute and whether the
overlay carries the `active` class. -/
structure ModalState where
  src : String
  active : Bool
deriving DecidableEq

/-- The embed URL, built by direct interpolation with no escaping. -/
def embedUrl (youtubeId : String) : String :=
  "https://www.youtube.com/embed/" ++ youtubeId ++ "?autoplay=1"

/-- Non-defensive openVideo (script.js lines 160-165): unconditionally sets
the player src and adds the `active` class; second component is the list of
alert notices shown (always none here). -/
def openVideo (youtubeId : String) (_st : ModalState) : ModalState × List String :=
  (⟨embedUrl youtubeId, true⟩, [])

/-- Defensive openVideo (part_000 lines 202-212): a falsy (empty) identifier
shows an alert and returns without touching the modal. -/
def openVideoDef (youtubeId : String) (st : ModalState) : ModalState × List String :=
  if youtubeId = "" then (st, ["🎥 Видео временно недоступно"])
  else (⟨embedUrl youtubeId, true⟩, [])

/-- closeModal, identical in both variants (script.js lines 168-173,
part_000 lines 215-220): clears the src and removes the `active` class. -/
def closeModal (_st : ModalState) : ModalState :=
  ⟨"", false⟩

/-- The parsed JSON document: either top-level key may be absent. -/
structure JsonDoc where
  articles : Option (List Article)
  videos : Option (List Video)
deriving DecidableEq

/-- Outcome of a `fetch` call: the promise rejects (network error), or a
response arrives with an ok flag and a body that either parses to a
`JsonDoc` or fails to parse (`none` makes `response.json()` throw). -/
inductive FetchResult where
  | networkError
  | response (ok : Bool) (body : Option JsonDoc)
deriving DecidableEq

/-- The page state the loaders touch: the two module-level arrays (an
`Option` because the non-defensive loader can assign `undefined`) and the
innerHTML of the two containers. -/
structure PageState where
  articlesData : Option (List Article)
  videosData : Option (List Video)
  articlesContainer : String
  videosContainer : String
deriving DecidableEq

/-- Error markup of the non-defensive article loader. -/
def errorArticlesHtml : String := "<div class=\"error\">Ошибка загрузки статей</div>"

/-- Error markup of the non-defensive video loader. -/
def errorVideosHtml : String := "<div class=\"error\">Ошибка загрузки видео</div>"

/-- Error markup of the defensive article loader. -/
def errorArticlesDefHtml : String := "<div class=\"error\">❌ Не удалось загрузить статьи</div>"

/-- Error markup of the defensive video loader. -/
def errorVideosDefHtml : String := "<div class=\"error\">❌ Не удалось загрузить видео</div>"

/-- Non-defensive loadArticles (script.js lines 22-33).  No ok check: any
response whose body parses is used.  When the `articles` key is absent the
global is assigned `undefined` and the subsequent `articles.length` in the
renderer throws, landing in the catch branch. -/
def loadArticles (r : FetchResult) (st : PageState) : PageState :=
  match r with
  | .networkError => { st with articlesContainer := errorArticlesHtml }
  | .response _ body =>
    match body with
    | none => { st with articlesContainer := errorArticlesHtml }
    | some data =>
      match data.articles with
      | none => { st with articlesData := none, articlesContainer := errorArticlesHtml }
      | some arts =>
        { st with articlesData := some arts, articlesContainer := renderArticles arts }

/-- Non-defensive loadVideos (script.js lines 36-47).  As loadArticles, and
additionally the render itself can throw (missing `tags`), which also lands
in the catch branch after the global was assigned. -/
def loadVideos (r : FetchResult) (st : PageState) : PageState :=
  match r with
  | .networkError => { st with videosContainer := errorVideosHtml }
  | .response _ body =>
    match body with
    | none => { st with videosContainer := errorVideosHtml }
    | some data =>
      match data.videos with
      | none => { st with videosData := none, videosContainer := errorVideosHtml }
      | some vids =>
        match renderVideos vids with
        | .ok h => { st with videosData := some vids, videosContainer := h }
        | .error _ => { st with videosData := some vids, videosContainer := errorVideosHtml }

/-- Defensive loadArticles (part_000 lines 14-28): a non-ok status throws
before the body is read; a missing key falls back to the empty array. -/
def loadArticlesDef (r : FetchResult) (st : PageState) : PageState :=
  match r with
  | .networkError => { st with articlesContainer := errorArticlesDefHtml }
  | .response ok body =>
    if !ok then { st with articlesContainer := errorArticlesDefHtml }
    else
      match body with
      | none => { st with articlesContainer := errorArticlesDefHtml }
      | some data =>
        { st with articlesData := some (data.articles.getD []),
                  articlesContainer := renderArticlesDef (data.articles.getD []) }

/-- Defensive loadVideos (part_000 lines 31-45). -/
def loadVideosDef (r : FetchResult) (st : PageState) : PageState :=
  match r with
  | .networkError => { st with videosContainer := errorVideosDefHtml }
  | .response ok body =>
    if !ok then { st with videosContainer := errorVideosDefHtml }
    else
      match body with
      | none => { st with videosContainer := errorVideosDefHtml }
      | some data =>
        { st with videosData := some (data.videos.getD []),
                  videosContainer := renderVideosDef (data.videos.getD []) }

/-- Spec-words definition for claim C2 only: two strings are equal up to
letter case when their lowercasings agree. -/
def eqIgnoreCase (a b : String) : Bool :=
  toLowerCase a == toLowerCase b

/-- The initial page state (script.js lines 2-3, part_000 lines 2-3): both
arrays empty, both containers empty. -/
def initialPageState : PageState :=
  ⟨some [], some [], "", ""⟩

/-- Whether a render outcome is a value rather than a thrown exception. -/
def renderOk (r : Except JsError String) : Bool :=
  match r with
  | .ok _ => true
  | .error _ => false

/-- Concrete article whose category field is capitalised "Sleep". -/
def artSleepCap : Article :=
  ⟨some 1, some "Deep sleep", some "why it matters", none, none, some "Sleep"⟩

/-- Concrete article whose category field is lowercase "sleep". -/
def artSleepLower : Article :=
  ⟨some 2, some "Naps", some "short rest", none, none, some "sleep"⟩

/-- Concrete video whose tags field is absent. -/
def vidNoTags : Video :=
  ⟨some "Breathing", none, some "abc", some "Ch", some "10:00", some "calm", none⟩

/-- Concrete video with all fields present. -/
def vidFull : Video :=
  ⟨some "Yoga", some "t.jpg", some "xyz", some "Ch", some "05:00", some "calm", some ["yoga"]⟩

/-- Helper for C5: the left-to-right card map over videoCard succeeds exactly
when every item in the list has its tags field present. -/
lemma mapCards_videoCard_ok (l : List Video) :
    (∃ ss, mapCards videoCard l = Except.ok ss) ↔ ∀ v ∈ l, v.tags.isSome = true := by
  induction l with
  | nil => simp [mapCards]
  | cons v vs ih =>
    cases htags : v.tags with
    | none =>
      simp only [mapCards, videoCard, htags]
      constructor
      · rintro ⟨ss, hss⟩
        cases hss
      · intro h
        have hv := h v (List.mem_cons_self v vs)
        rw [htags] at hv
        cases hv
    | some tags =>
      simp only [mapCards, videoCard, htags]
      cases hm : mapCards videoCard vs with
      | error e =>
        simp only [hm]
        constructor
        · rintro ⟨ss, hss⟩
          cases hss
        · intro h
          rcases ih.mpr (fun w hw => h w (List.mem_cons_of_mem v hw)) with ⟨ss, hss⟩
          rw [hm] at hss
          cases hss
      | ok ss =>
        simp only [hm]
        constructor
        · intro _ w hw
          rcases List.mem_cons.mp hw with h1 | h2
          · subst h1
            rw [htags]
            rfl
          · exact ih.mp ⟨ss, hm⟩ w h2
        · intro _
          exact ⟨_, rfl⟩

/-- C8: for every prior modal state — open with any player source, or already
closed — closeModal clears the player source to the empty string and marks the
modal closed (the two source variants are identical here). -/
theorem C8_closeModal_clears (st : ModalState) :
    (closeModal st).src = "" ∧ (closeModal st).active = false :=
  ⟨rfl, rfl⟩

/-- C9: calling openVideo with the identifier "abc123" sets the player source
to exactly the autoplay embed URL and marks the modal open, in both variants;
in general the embed URL is the direct interpolation of the identifier between
the fixed prefix and suffix, with no escaping, and the defensive variant uses
it for every non-empty identifier. -/
theorem C9_openVideo_url :
    (∀ st : ModalState, openVideo "abc123" st =
        (⟨"https://www.youtube.com/embed/abc123?autoplay=1", true⟩, [])) ∧
    (∀ st : ModalState, openVideoDef "abc123" st =
        (⟨"https://www.youtube.com/embed/abc123?autoplay=1", true⟩, [])) ∧
    (∀ ytid : String,
        embedUrl ytid = "https://www.youtube.com/embed/" ++ ytid ++ "?autoplay=1") ∧
    (∀ (ytid : String) (st : ModalState), ytid ≠ "" →
        openVideoDef ytid st = (⟨embedUrl ytid, true⟩, [])) := by
  refine ⟨fun st => rfl, fun st => rfl, fun ytid => rfl, ?_⟩
  intro ytid st h
  simp [openVideoDef, h]

/-- Witness for C9: the general defensive clause evaluated at a concrete
non-empty identifier. -/
theorem C9_witness :
    openVideoDef "xyz" ⟨"", false⟩ = (⟨embedUrl "xyz", true⟩, []) :=
  C9_openVideo_url.2.2.2 "xyz" ⟨"", false⟩ (by decide)

/-- Counterexample to C3: in the non-defensive variant, calling openVideo with
the empty identifier from the closed modal state shows no notice and does
perform a transition — the modal is marked active and the player source is set
to the degenerate embed URL. -/
theorem C3_counterexample :
    (openVideo "" ⟨"", false⟩).1.active = true ∧
    (openVideo "" ⟨"", false⟩).2 = [] ∧
    (openVideo "" ⟨"", false⟩).1.src = "https://www.youtube.com/embed/?autoplay=1" :=
  ⟨rfl, rfl, rfl⟩

/-- C3 amended: in the defensive variant, for every modal state, calling
openVideo with an empty identifier shows the alert notice and performs no
state transition; the non-defensive variant instead shows no notice and opens
the modal on the degenerate embed URL. -/
theorem C3_openVideo_empty :
    (∀ st : ModalState, openVideoDef "" st = (st, ["🎥 Видео временно недоступно"])) ∧
    (∀ st : ModalState,
        openVideo "" st = (⟨"https://www.youtube.com/embed/?autoplay=1", true⟩, [])) :=
  ⟨fun st => rfl, fun st => rfl⟩

/-- C10: in the non-defensive variant, a fetch that succeeds with a well-formed
JSON document lacking the articles (resp. videos) key leaves the global array
assigned undefined and puts the static error message into the corresponding
container — the same container outcome as a network failure. -/
theorem C10_missing_key_errors :
    (∀ (st : PageState) (vids : Option (List Video)),
        loadArticles (.response true (some ⟨none, vids⟩)) st =
          { st with articlesData := none, articlesContainer := errorArticlesHtml }) ∧
    (∀ (st : PageState) (arts : Option (List Article)),
        loadVideos (.response true (some ⟨arts, none⟩)) st =
          { st with videosData := none, videosContainer := errorVideosHtml }) ∧
    (∀ st : PageState, loadArticles .networkError st =
        { st with articlesContainer := errorArticlesHtml }) ∧
    (∀ st : PageState, loadVideos .networkError st =
        { st with videosContainer := errorVideosHtml }) :=
  ⟨fun st vids => rfl, fun st arts => rfl, fun st => rfl, fun st => rfl⟩

/-- Counterexample to C4: the non-defensive article loader never checks the
response status, so a non-success response whose body is valid JSON with an
articles key renders normally — the container receives the empty-list
placeholder, not the static error message. -/
theorem C4_counterexample :
    loadArticles (.response false (some ⟨some [], none⟩)) initialPageState =
      { initialPageState with articlesData := some [],
                              articlesContainer := noArticlesHtml } ∧
    noArticlesHtml ≠ errorArticlesHtml :=
  ⟨rfl, by decide⟩

/-- C4 amended: in the defensive variant a network error or a non-success
status replaces the corresponding container with the static error message and
leaves every other page-state component — in particular the other content
type's array and container — unchanged; in the non-defensive variant the same
holds for a network error or a body that fails to parse, but not for a
non-success status alone. -/
theorem C4_loader_failure :
    (∀ st : PageState, loadArticlesDef .networkError st =
        { st with articlesContainer := errorArticlesDefHtml }) ∧
    (∀ (st : PageState) (body : Option JsonDoc),
        loadArticlesDef (.response false body) st =
          { st with articlesContainer := errorArticlesDefHtml }) ∧
    (∀ st : PageState, loadVideosDef .networkError st =
        { st with videosContainer := errorVideosDefHtml }) ∧
    (∀ (st : PageState) (body : Option JsonDoc),
        loadVideosDef (.response false body) st =
          { st with videosContainer := errorVideosDefHtml }) ∧
    (∀ st : PageState, loadArticles .networkError st =
        { st with articlesContainer := errorArticlesHtml }) ∧
    (∀ (st : PageState) (ok : Bool), loadArticles (.response ok none) st =
        { st with articlesContainer := errorArticlesHtml }) ∧
    (∀ st : PageState, loadVideos .networkError st =
        { st with videosContainer := errorVideosHtml }) ∧
    (∀ (st : PageState) (ok : Bool), loadVideos (.response ok none) st =
        { st with videosContainer := errorVideosHtml }) :=
  ⟨fun st => rfl, fun st body => rfl, fun st => rfl, fun st body => rfl,
   fun st => rfl, fun st ok => rfl, fun st => rfl, fun st ok => rfl⟩

/-- C6: for every non-empty item sequence the rendered fragment is the ordered
concatenation of exactly one card per input item, and for the empty sequence
it is exactly the single placeholder message, in both renderArticles
variants. -/
theorem C6_render_one_card_per_item :
    (∀ articles : List Article, articles ≠ [] →
        ∃ cards : List String, cards = articles.map articleCard ∧
          cards.length = articles.length ∧
          renderArticles articles = String.join cards) ∧
    renderArticles [] = noArticlesHtml ∧
    (∀ articles : List Article, articles ≠ [] →
        ∃ cards : List String, cards = articles.map articleCardDef ∧
          cards.length = articles.length ∧
          renderArticlesDef articles = String.join cards) ∧
    renderArticlesDef [] = noArticlesHtml := by
  refine ⟨?_, rfl, ?_, rfl⟩
  · intro articles h
    have h0 : ¬ articles.length = 0 := by simpa [List.length_eq_zero] using h
    exact ⟨articles.map articleCard, rfl, by simp, by simp [renderArticles, h0]⟩
  · intro articles h
    have h0 : ¬ articles.length = 0 := by simpa [List.length_eq_zero] using h
    exact ⟨articles.map articleCardDef, rfl, by simp, by simp [renderArticlesDef, h0]⟩

/-- Witness for C6: the non-empty clause evaluated at a one-element list. -/
theorem C6_witness :
    ∃ cards : List String, cards = [artSleepCap].map articleCard ∧
      cards.length = [artSleepCap].length ∧
      renderArticles [artSleepCap] = String.join cards :=
  C6_render_one_card_per_item.1 [artSleepCap] (List.cons_ne_nil _ _)

/-- Counterexample to C5: in the non-defensive variant, renderVideos on a
sequence containing an item whose optional tags field is absent throws a
TypeError instead of producing a degraded rendered result. -/
theorem C5_counterexample :
    renderVideos [vidNoTags] = Except.error JsError.typeError :=
  rfl

/-- C5 amended: in the non-defensive variant renderArticles terminates with a
rendered string for every item sequence, including ones lacking optional
fields (absent fields render as the literal text "undefined"); renderVideos
terminates without throwing exactly when every item has its tags field
present, and throws a TypeError otherwise. -/
theorem C5_render_termination :
    (∀ articles : List Article, articles ≠ [] →
        renderArticles articles = String.join (articles.map articleCard)) ∧
    (∀ videos : List Video,
        renderOk (renderVideos videos) = true ↔ ∀ v ∈ videos, v.tags.isSome = true) := by
  constructor
  · intro articles h
    have h0 : ¬ articles.length = 0 := by simpa [List.length_eq_zero] using h
    simp [renderArticles, h0]
  · intro videos
    by_cases h0 : videos.length = 0
    · have hnil : videos = [] := List.length_eq_zero.mp h0
      subst hnil
      simp [renderVideos, renderOk]
    · cases hm : mapCards videoCard videos with
      | error e =>
        have he : renderVideos videos = .error e := by
          simp [renderVideos, h0, hm]
        rw [he]
        simp only [renderOk]
        constructor
        · intro h
          cases h
        · intro h
          rcases (mapCards_videoCard_ok videos).mpr h with ⟨ss, hss⟩
          rw [hm] at hss
          cases hss
      | ok ss =>
        have he : renderVideos videos = .ok (String.join ss) := by
          simp [renderVideos, h0, hm]
        rw [he]
        simp only [renderOk]
        constructor
        · intro _
          exact (mapCards_videoCard_ok videos).mp ⟨ss, hm⟩
        · intro _
          trivial

/-- Witness for C5: the renderArticles clause evaluated at a one-element list
whose item lacks several optional fields. -/
theorem C5_witness :
    renderArticles [artSleepCap] = String.join ([artSleepCap].map articleCard) :=
  C5_render_termination.1 [artSleepCap] (List.cons_ne_nil _ _)

/-- Counterexample to C7: on an empty loaded array the defensive filterArticles
returns before rendering anything, so filtering with "all" does not render the
original (empty) sequence — rendering it would produce the placeholder. -/
theorem C7_counterexample :
    filterArticlesDef "all" ([] : List Article) = none ∧
    none ≠ some (renderArticlesDef ([] : List Article)) :=
  ⟨rfl, by simp⟩

/-- C7 amended: filtering with the sentinel category "all" renders the loaded
sequence unchanged — in the non-defensive variant for every loaded array, in
the defensive variant for every non-empty loaded array; on an empty loaded
array the defensive filter silently no-ops without rendering. -/
theorem C7_filter_all_identity :
    (∀ articlesData : List Article,
        filterArticles "all" articlesData = renderArticles articlesData) ∧
    (∀ videosData : List Video,
        filterVideos "all" videosData = renderVideos videosData) ∧
    (∀ articlesData : List Article, articlesData ≠ [] →
        filterArticlesDef "all" articlesData = some (renderArticlesDef articlesData)) ∧
    (∀ videosData : List Video, videosData ≠ [] →
        filterVideosDef "all" videosData = some (renderVideosDef videosData)) ∧
    filterArticlesDef "all" [] = none ∧
    filterVideosDef "all" [] = none := by
  refine ⟨fun l => rfl, fun l => rfl, ?_, ?_, rfl, rfl⟩
  · intro l h
    have h0 : ¬ l.length = 0 := by simpa [List.length_eq_zero] using h
    simp [filterArticlesDef, h0]
  · intro l h
    have h0 : ¬ l.length = 0 := by simpa [List.length_eq_zero] using h
    simp [filterVideosDef, h0]

/-- Witness for C7: the defensive non-empty clause evaluated at a one-element
array. -/
theorem C7_witness :
    filterArticlesDef "all" [artSleepCap] = some (renderArticlesDef [artSleepCap]) :=
  C7_filter_all_identity.2.2.1 [artSleepCap] (List.cons_ne_nil _ _)

/-- Counterexample to C1: the category string "Sleep" occurs in the category
field of exactly one item of the loaded array, yet the defensive
filterArticles lowercases the item field before comparing it with the raw
target, selects nothing, and renders the placeholder instead of that item. -/
theorem C1_counterexample :
    List.countP (fun a => a.category == some "Sleep") [artSleepCap] = 1 ∧
    filterArticlesDef "Sleep" [artSleepCap] = some noArticlesHtml ∧
    some noArticlesHtml ≠ some (renderArticlesDef [artSleepCap]) :=
  ⟨rfl, rfl, by decide⟩

/-- C1 amended: in the non-defensive variant, filtering by a non-"all"
category renders exactly the items whose category field equals the target —
an order-preserving sublist whose length is the number of matching items —
and the placeholder when no item matches; the defensive variant does the same
on a non-empty loaded array with the match counting items whose lowercased
category field equals the target, and silently no-ops on an empty array. -/
theorem C1_filter_category_counts :
    (∀ (articlesData : List Article) (category : String), category ≠ "all" →
        filterArticles category articlesData =
          renderArticles (articlesData.filter (articleMatches category)) ∧
        (articlesData.filter (articleMatches category)).Sublist articlesData ∧
        (∀ a ∈ articlesData.filter (articleMatches category),
          articleMatches category a = true) ∧
        (articlesData.filter (articleMatches category)).length =
          articlesData.countP (articleMatches category) ∧
        (articlesData.countP (articleMatches category) = 0 →
          filterArticles category articlesData = noArticlesHtml)) ∧
    (∀ (videosData : List Video) (category : String), category ≠ "all" →
        filterVideos category videosData =
          renderVideos (videosData.filter (videoMatches category)) ∧
        (videosData.filter (videoMatches category)).Sublist videosData ∧
        (videosData.filter (videoMatches category)).length =
          videosData.countP (videoMatches category) ∧
        (videosData.countP (videoMatches category) = 0 →
          filterVideos category videosData = Except.ok noVideosHtml)) ∧
    (∀ (articlesData : List Article) (category : String),
        category ≠ "all" → articlesData ≠ [] →
        filterArticlesDef category articlesData =
          some (renderArticlesDef (articlesData.filter (articleMatchesDef category))) ∧
        (articlesData.filter (articleMatchesDef category)).Sublist articlesData ∧
        (articlesData.countP (articleMatchesDef category) = 0 →
          filterArticlesDef category articlesData = some noArticlesHtml)) ∧
    (∀ (videosData : List Video) (category : String),
        category ≠ "all" → videosData ≠ [] →
        filterVideosDef category videosData =
          some (renderVideosDef (videosData.filter (videoMatchesDef category))) ∧
        (videosData.countP (videoMatchesDef category) = 0 →
          filterVideosDef category videosData = some noVideosHtml)) ∧
    (∀ category : String,
        filterArticlesDef category [] = none ∧ filterVideosDef category [] = none) := by
  refine ⟨?_, ?_, ?_, ?_, fun category => ⟨rfl, rfl⟩⟩
  · intro l category h
    have e1 : filterArticles category l =
        renderArticles (l.filter (articleMatches category)) := by
      simp [filterArticles, h]
    refine ⟨e1, List.filter_sublist _, fun a ha => List.of_mem_filter ha,
      (List.countP_eq_length_filter _ _).symm, ?_⟩
    intro hc
    have hf : l.filter (articleMatches category) = [] := by
      have hlen := List.countP_eq_length_filter (articleMatches category) l
      rw [hc] at hlen
      exact List.length_eq_zero.mp hlen.symm
    rw [e1, hf]
    rfl
  · intro l category h
    have e1 : filterVideos category l =
        renderVideos (l.filter (videoMatches category)) := by
      simp [filterVideos, h]
    refine ⟨e1, List.filter_sublist _, (List.countP_eq_length_filter _ _).symm, ?_⟩
    intro hc
    have hf : l.filter (videoMatches category) = [] := by
      have hlen := List.countP_eq_length_filter (videoMatches category) l
      rw [hc] at hlen
      exact List.length_eq_zero.mp hlen.symm
    rw [e1, hf]
    rfl
  · intro l category h hne
    have h0 : ¬ l.length = 0 := by simpa [List.length_eq_zero] using hne
    have e1 : filterArticlesDef category l =
        some (renderArticlesDef (l.filter (articleMatchesDef category))) := by
      simp [filterArticlesDef, h0, h]
    refine ⟨e1, List.filter_sublist _, ?_⟩
    intro hc
    have hf : l.filter (articleMatchesDef category) = [] := by
      have hlen := List.countP_eq_length_filter (articleMatchesDef category) l
      rw [hc] at hlen
      exact List.length_eq_zero.mp hlen.symm
    rw [e1, hf]
    rfl
  · intro l category h hne
    have h0 : ¬ l.length = 0 := by simpa [List.length_eq_zero] using hne
    have e1 : filterVideosDef category l =
        some (renderVideosDef (l.filter (videoMatchesDef category))) := by
      simp [filterVideosDef, h0, h]
    refine ⟨e1, ?_⟩
    intro hc
    have hf : l.filter (videoMatchesDef category) = [] := by
      have hlen := List.countP_eq_length_filter (videoMatchesDef category) l
      rw [hc] at hlen
      exact List.length_eq_zero.mp hlen.symm
    rw [e1, hf]
    rfl

/-- Witness for C1: the non-defensive clause evaluated at a concrete array and
category. -/
theorem C1_witness :
    filterArticles "Sleep" [artSleepCap] =
      renderArticles ([artSleepCap].filter (articleMatches "Sleep")) :=
  (C1_filter_category_counts.1 [artSleepCap] "Sleep" (by decide)).1

/-- Counterexample to C2: the item category "sleep" equals the target "SLEEP"
up to letter case, yet the defensive filter does not select the item — the
code compares the lowercased field with the raw target, so a target with an
uppercase letter matches nothing. -/
theorem C2_counterexample :
    eqIgnoreCase (artSleepLower.category.getD "") "SLEEP" = true ∧
    articleMatchesDef "SLEEP" artSleepLower = false ∧
    filterArticlesDef "SLEEP" [artSleepLower] = some noArticlesHtml :=
  ⟨rfl, rfl, rfl⟩

/-- C2 amended: in the defensive variant an item is selected exactly when the
lowercasing of its category field (empty string when absent) equals the target
string verbatim, which coincides with equality up to letter case only when the
target is itself lowercase; in the other variant the match is exact string
equality of a present category field with the target. -/
theorem C2_match_semantics :
    (∀ (category : String) (a : Article),
        articleMatchesDef category a = true ↔ toLowerCase (a.category.getD "") = category) ∧
    (∀ (category : String) (a : Article),
        articleMatches category a = true ↔ a.category = some category) ∧
    (∀ (category : String) (v : Video),
        videoMatchesDef category v = true ↔ toLowerCase (v.category.getD "") = category) ∧
    (∀ (category : String) (v : Video),
        videoMatches category v = true ↔ v.category = some category) ∧
    (∀ (category : String) (a : Article), toLowerCase category = category →
        (articleMatchesDef category a = true ↔
          eqIgnoreCase (a.category.getD "") category = true)) := by
  refine ⟨?_, ?_, ?_, ?_, ?_⟩
  · intro category a
    simp [articleMatchesDef]
  · intro category a
    simp [articleMatches]
  · intro category v
    simp [videoMatchesDef]
  · intro category v
    simp [videoMatches]
  · intro category a h
    simp [articleMatchesDef, eqIgnoreCase, h]

/-- Witness for C2: the lowercase-target clause evaluated at a concrete item
and target. -/
theorem C2_witness :
    articleMatchesDef "sleep" artSleepLower = true ↔
      eqIgnoreCase (artSleepLower.category.getD "") "sleep" = true :=
  C2_match_semantics.2.2.2.2 "sleep" artSleepLower (by decide)

end CareCloud
